import Mathlib

/-!
Shallow embedding of the token-refresh authentication core of the
coursera-labs-api client (`src/coursera/refresher_auth.py`,
`src/coursera/credentials.py`, and the authorizer selection in
`src/coursera/client.py`).

Time is modelled as natural-number seconds; `datetime.now()` becomes an
explicit `now : Nat` argument.  Python's dynamically typed `expires_at`
field (the int `0` initially, a `datetime` after a successful refresh) is
modelled by the two-constructor type `PyExpiry`; comparing a datetime with
an int raises `TypeError` in Python, which the embedding surfaces as an
explicit error value.  Exceptions raised by a method are returned as
explicit error values alongside the post-state, so that partial updates of
the mutable object are observable exactly as in the source.
-/

/-- Python truthiness of an optional string: `None` and `""` are falsy,
every other string is truthy (the test performed by `self.access_token and …`
and by `if creds.refresh_token:`). -/
def pyTruthy : Option String → Bool
  | none => false
  | some s => !s.isEmpty

/-- Python `str(x)` / `"{}".format(x)` on an optional string:
`None` prints as `"None"`. -/
def pyFormat : Option String → String
  | none => "None"
  | some s => s

/-- The dynamically typed `expires_at` attribute: either a Python int
(the initial sentinel `0` set by `__init__`) or a datetime (seconds). -/
inductive PyExpiry where
  | int (n : Int)
  | dt (t : Nat)
deriving DecidableEq, Repr

/-- Exceptions the authorizer can raise.  `authRefreshError status msg`
models the `RuntimeError("Unable to get a access token … [{status}] {msg}")`
raised by `refresh` on a non-200 response: its message interpolates the
status code and `resp.json()["msg"]`, so the two are carried as fields.
`keyError k` models a Python `KeyError` from a missing dict key `k`, and
`typeError` the `TypeError` from ordering a datetime against an int. -/
inductive PyError where
  | authRefreshError (status : Nat) (msg : String)
  | keyError (key : String)
  | typeError
deriving DecidableEq, Repr

/-- `coursera.credentials.Credentials`: client identity plus the refresh
token.  The fields come from `os.environ.get`, so the refresh token may be
absent (`None`). -/
structure Credentials where
  client_id : String
  client_secret : String
  scopes : String
  refresh_token : Option String
deriving DecidableEq, Repr

/-- The JSON object decoded from the token endpoint's response body,
restricted to the keys the client ever reads (`access_token`, `expires_in`,
`msg`) plus `message`, which the spec mentions; each key may be absent. -/
structure TokenResponseBody where
  access_token : Option String
  expires_in : Option Nat
  msg : Option String
  message : Option String
deriving DecidableEq, Repr

/-- The mocked HTTP response of the token endpoint: status code and
decoded JSON body. -/
structure HttpResponse where
  status_code : Nat
  body : TokenResponseBody
deriving DecidableEq, Repr

/-- An outbound API request descriptor: method, URL, optional body and a
header association list. -/
structure Request where
  method : String
  url : String
  body : Option String
  headers : List (String × String)
deriving DecidableEq, Repr

/-- Dict-style lookup in a header list. -/
def getHeader : List (String × String) → String → Option String
  | [], _ => none
  | (k', v) :: rest, k => if k' = k then some v else getHeader rest k

/-- Dict-style assignment `headers[k] = v`: replaces the value of the first
entry with key `k`, or appends a new entry. -/
def setHeader : List (String × String) → String → String → List (String × String)
  | [], k, v => [(k, v)]
  | (k', v') :: rest, k, v =>
      if k' = k then (k, v) :: rest else (k', v') :: setHeader rest k v

/-- The form-encoded POST that `refresh` sends to the token endpoint:
target URL and the `data` dict (values are optional strings because
`creds.refresh_token` may be `None`). -/
structure TokenRequest where
  url : String
  data : List (String × Option String)
deriving DecidableEq, Repr

/-- `ACCOUNT_ROOT` as defined in this repository (`coursera_labs.py`). -/
def ACCOUNT_ROOT : String := "https://accounts.coursera.org/oauth2/v1"

/-- State of a `RefresherAuth` object: the credentials reference plus the
mutable `access_token` / `expires_at` pair. -/
structure RefresherAuth where
  creds : Credentials
  access_token : Option String
  expires_at : PyExpiry
deriving DecidableEq, Repr

/-- `RefresherAuth.__init__`: stores the credentials and initialises
`access_token = None`, `expires_at = 0` (a Python int).  No validation
is performed. -/
def RefresherAuth.init (creds : Credentials) : RefresherAuth :=
  ⟨creds, none, .int 0⟩

/-- `RefresherAuth.is_valid`, i.e.
`self.access_token and datetime.now() < self.expires_at`.
If the token is falsy the conjunction short-circuits to a falsy value;
otherwise Python compares `datetime.now()` with `expires_at`, which raises
`TypeError` when `expires_at` is still the int sentinel. -/
def RefresherAuth.is_valid (s : RefresherAuth) (now : Nat) : Except PyError Bool :=
  if pyTruthy s.access_token then
    match s.expires_at with
    | .int _ => .error .typeError
    | .dt e => .ok (decide (now < e))
  else
    .ok false

/-- The `data` dict of the refresh POST, in source order. -/
def refreshData (creds : Credentials) : List (String × Option String) :=
  [("refresh_token", creds.refresh_token),
   ("grant_type", some "refresh_token"),
   ("client_id", some creds.client_id),
   ("client_secret", some creds.client_secret),
   ("redirect_uri", some "http://localhost:9876/callback")]

/-- `RefresherAuth.refresh`: posts `refreshData` to `ACCOUNT_ROOT + "/token"`
(the response to that single POST is the argument `resp`), then:
on `status_code != 200` raises the `RuntimeError` built from the status and
`resp.json()["msg"]`; on 200 assigns `self.access_token =
value["access_token"]` and then `self.expires_at = datetime.now() +
timedelta(seconds=value["expires_in"])`, in that order, so a missing
`expires_in` raises after `access_token` was already overwritten.
Returns the post-state, the raised exception if any, and the list of
token-endpoint requests issued (always exactly the one POST). -/
def RefresherAuth.refresh (s : RefresherAuth) (now : Nat) (resp : HttpResponse) :
    RefresherAuth × Option PyError × List TokenRequest :=
  let post : TokenRequest := ⟨ACCOUNT_ROOT ++ "/token", refreshData s.creds⟩
  if resp.status_code ≠ 200 then
    match resp.body.msg with
    | some m => (s, some (.authRefreshError resp.status_code m), [post])
    | none => (s, some (.keyError "msg"), [post])
  else
    match resp.body.access_token with
    | none => (s, some (.keyError "access_token"), [post])
    | some tok =>
      match resp.body.expires_in with
      | none => ({ s with access_token := some tok }, some (.keyError "expires_in"), [post])
      | some exp =>
          ({ s with access_token := some tok, expires_at := .dt (now + exp) }, none, [post])

/-- `request.headers["Authorization"] = "Bearer {}".format(self.access_token)`. -/
def attachAuth (req : Request) (tok : Option String) : Request :=
  { req with headers := setHeader req.headers "Authorization" ("Bearer " ++ pyFormat tok) }

/-- Decidable equality for `Except`, needed to evaluate call outcomes. -/
def Except.decEq {ε : Type u} {α : Type v} [DecidableEq ε] [DecidableEq α] :
    DecidableEq (Except ε α)
  | .error a, .error b =>
    if h : a = b then .isTrue (h ▸ rfl) else .isFalse (fun hc => h (Except.error.inj hc))
  | .error _, .ok _ => .isFalse (fun hc => Except.noConfusion hc)
  | .ok _, .error _ => .isFalse (fun hc => Except.noConfusion hc)
  | .ok a, .ok b =>
    if h : a = b then .isTrue (h ▸ rfl) else .isFalse (fun hc => h (Except.ok.inj hc))

instance {ε : Type u} {α : Type v} [DecidableEq ε] [DecidableEq α] :
    DecidableEq (Except ε α) := Except.decEq

/-- Outcome of one `authorize` call: the authorizer's post-state, the
decorated request or the raised exception, and the token-endpoint requests
issued during the call. -/
structure CallResult where
  state : RefresherAuth
  result : Except PyError Request
  issued : List TokenRequest
deriving DecidableEq, Repr

/-- `RefresherAuth.__call__` (the authorize step): refresh unless
`is_valid()`, then attach the bearer header and return the request. -/
def RefresherAuth.call (s : RefresherAuth) (now : Nat) (resp : HttpResponse)
    (req : Request) : CallResult :=
  match s.is_valid now with
  | .error e => ⟨s, .error e, []⟩
  | .ok true => ⟨s, .ok (attachAuth req s.access_token), []⟩
  | .ok false =>
    match s.refresh now resp with
    | (s', some e, issued) => ⟨s', .error e, issued⟩
    | (s', none, issued) => ⟨s', .ok (attachAuth req s'.access_token), issued⟩

/-- A sequence of authorize calls against one authorizer, each with its own
clock reading, mocked refresh response and outgoing request; returns the
final state, the per-call outcomes, and all token-endpoint requests issued. -/
def runCalls (s : RefresherAuth) :
    List (Nat × HttpResponse × Request) →
      RefresherAuth × List (Except PyError Request) × List TokenRequest
  | [] => (s, [], [])
  | (now, resp, req) :: rest =>
    let r := s.call now resp req
    let (s', results, issued) := runCalls r.state rest
    (s', r.result :: results, r.issued ++ issued)

/-- The authorizer chosen by `Coursera.__init__` in `client.py`. -/
inductive Auth where
  | refresher (a : RefresherAuth)
  | oauth2Flow (creds : Credentials)
deriving DecidableEq, Repr

/-- `Coursera.__init__`'s selection: `if creds.refresh_token:` use
`RefresherAuth(creds)`, else fall back to the interactive OAuth2 flow. -/
def buildAuth (creds : Credentials) : Auth :=
  if pyTruthy creds.refresh_token then .refresher (RefresherAuth.init creds)
  else .oauth2Flow creds

/-- States reachable from construction through authorize calls whose
refresh responses are well-formed in the sense that a 200-status response
always carries `expires_in`. -/
inductive ReachableW : RefresherAuth → Prop
  | init (creds : Credentials) : ReachableW (RefresherAuth.init creds)
  | step (s : RefresherAuth) (now : Nat) (resp : HttpResponse) (req : Request)
      (hresp : resp.status_code = 200 → resp.body.expires_in ≠ none)
      (hs : ReachableW s) : ReachableW (s.call now resp req).state

/-! Concrete fixtures used to evaluate the operations at specific inputs. -/

/-- Sample credentials with a refresh token present. -/
def credsA : Credentials := ⟨"a", "b", "view_profile", some "r"⟩

/-- Credentials with no refresh token. -/
def credsNoToken : Credentials := ⟨"id", "secret", "view_profile", none⟩

/-- A plain outbound request with one unrelated header. -/
def reqA : Request := ⟨"GET", "/externalBasicProfiles.v1", none, [("Accept", "application/json")]⟩

/-- An outbound request that already carries an Authorization header. -/
def reqB : Request := ⟨"POST", "/v1/courses/c1/assets", some "x", [("Authorization", "Bearer stale")]⟩

/-- A freshly constructed authorizer. -/
def sInitA : RefresherAuth := RefresherAuth.init credsA

/-- An authorizer holding a token valid until time 100. -/
def sValidA : RefresherAuth := ⟨credsA, some "tok", .dt 100⟩

/-- An authorizer holding a token that expired at time 10. -/
def sOldTok : RefresherAuth := ⟨credsA, some "old", .dt 10⟩

/-- A successful refresh response: token `tok1`, 3600-second lifetime. -/
def resp3600 : HttpResponse := ⟨200, ⟨some "tok1", some 3600, none, none⟩⟩

/-- A successful refresh response: token `tok2`, 60-second lifetime. -/
def resp60 : HttpResponse := ⟨200, ⟨some "tok2", some 60, none, none⟩⟩

/-- A 400 failure whose body has a `msg` field. -/
def respBadCreds : HttpResponse := ⟨400, ⟨none, none, some "bad creds", none⟩⟩

/-- A 400 failure whose body has a `message` field but no `msg` field. -/
def respMessageOnly : HttpResponse := ⟨400, ⟨none, none, none, some "oops"⟩⟩

/-- A 200 response whose body carries `access_token` but no `expires_in`. -/
def respNoExpiry : HttpResponse := ⟨200, ⟨some "new", none, none, none⟩⟩

/-! Helper lemmas about headers, `is_valid`, `refresh` and `call`. -/

theorem getHeader_setHeader_self (hs : List (String × String)) (k v : String) :
    getHeader (setHeader hs k v) k = some v := by
  induction hs with
  | nil => simp [setHeader, getHeader]
  | cons p rest ih =>
    obtain ⟨k', v'⟩ := p
    by_cases h : k' = k
    · simp [setHeader, getHeader, h]
    · simp [setHeader, getHeader, h, ih]

theorem getHeader_setHeader_ne (hs : List (String × String)) (k v k' : String)
    (h : k' ≠ k) : getHeader (setHeader hs k v) k' = getHeader hs k' := by
  induction hs with
  | nil => simp [setHeader, getHeader, Ne.symm h]
  | cons p rest ih =>
    obtain ⟨k'', v''⟩ := p
    by_cases hk : k'' = k
    · subst hk
      simp [setHeader, getHeader, Ne.symm h]
    · by_cases h2 : k'' = k' <;> simp [setHeader, getHeader, hk, h2, h, ih]

theorem is_valid_ok_false_mono (s : RefresherAuth) (now now' : Nat)
    (h : s.is_valid now = .ok false) (hle : now ≤ now') :
    s.is_valid now' = .ok false := by
  unfold RefresherAuth.is_valid at h ⊢
  by_cases hp : pyTruthy s.access_token
  · cases he : s.expires_at with
    | int n => simp [hp, he] at h
    | dt e =>
      simp [hp, he] at h ⊢
      omega
  · simp [hp]

theorem call_of_valid (s : RefresherAuth) (now : Nat) (resp : HttpResponse)
    (req : Request) (h : s.is_valid now = .ok true) :
    s.call now resp req = ⟨s, .ok (attachAuth req s.access_token), []⟩ := by
  simp [RefresherAuth.call, h]

theorem refresh_issued_eq (s : RefresherAuth) (now : Nat) (resp : HttpResponse) :
    (s.refresh now resp).2.2 = [⟨ACCOUNT_ROOT ++ "/token", refreshData s.creds⟩] := by
  unfold RefresherAuth.refresh
  by_cases hs : resp.status_code ≠ 200
  · cases hm : resp.body.msg <;> simp [hs, hm]
  · cases ha : resp.body.access_token with
    | none => simp [hs, ha]
    | some tok => cases he : resp.body.expires_in <;> simp [hs, ha, he]

theorem call_result_ok_eq (s : RefresherAuth) (now : Nat) (resp : HttpResponse)
    (req : Request) (out : Request) (h : (s.call now resp req).result = .ok out) :
    out = attachAuth req (s.call now resp req).state.access_token := by
  unfold RefresherAuth.call at h ⊢
  cases hv : s.is_valid now with
  | error e => simp [hv] at h
  | ok b =>
    cases b with
    | true =>
      simp [hv] at h ⊢
      exact h.symm
    | false =>
      rcases hr : s.refresh now resp with ⟨s', oe, issued⟩
      cases oe with
      | none =>
        simp [hv, hr] at h ⊢
        exact h.symm
      | some e => simp [hv, hr] at h

/-! Claim theorems. -/

/-- Claim C1: for every state of the authorizer and every clock value,
`is_valid` returns `true` iff the access token is present (truthy: set and
nonempty, as Python's `and` tests it) and the clock is strictly before
`expires_at`; consequently, for any sequence of authorize calls made while
the cached token is valid, no refresh call is issued and each call returns
the request with the cached token attached, leaving the state unchanged. -/
theorem is_valid_iff_and_cache_hit (s : RefresherAuth) :
    (∀ now : Nat, s.is_valid now = .ok true ↔
       pyTruthy s.access_token = true ∧ ∃ e, s.expires_at = .dt e ∧ now < e) ∧
    (∀ calls : List (Nat × HttpResponse × Request),
       (∀ c ∈ calls, s.is_valid c.1 = .ok true) →
       runCalls s calls =
         (s, calls.map (fun c => .ok (attachAuth c.2.2 s.access_token)), [])) := by
  constructor
  · intro now
    unfold RefresherAuth.is_valid
    by_cases hp : pyTruthy s.access_token
    · cases he : s.expires_at with
      | int n => simp [hp, he]
      | dt e => simp [hp, he]
    · simp [hp]
  · intro calls h
    induction calls with
    | nil => simp [runCalls]
    | cons c rest ih =>
      obtain ⟨now, resp, req⟩ := c
      have hc : s.is_valid now = .ok true := h _ (List.mem_cons_self _ _)
      have hrest : ∀ c ∈ rest, s.is_valid c.1 = .ok true :=
        fun c hc' => h c (List.mem_cons_of_mem _ hc')
      simp [runCalls, call_of_valid s now resp req hc, ih hrest]

/-- Witness for C1 at a concrete valid state and a one-call sequence. -/
theorem is_valid_iff_and_cache_hit_witness :
    sValidA.is_valid 50 = Except.ok true ∧
    runCalls sValidA [(50, resp60, reqA)] =
      (sValidA, [Except.ok (attachAuth reqA (some "tok"))], []) :=
  ⟨((is_valid_iff_and_cache_hit sValidA).1 50).mpr ⟨by decide, 100, rfl, by decide⟩,
   (is_valid_iff_and_cache_hit sValidA).2 [(50, resp60, reqA)]
     (by
       intro c hc
       simp only [List.mem_singleton] at hc
       subst hc
       decide)⟩

/-- Claim C2: a successful refresh at time `T` whose response body carries
`access_token` (a nonempty token) and `expires_in` replaces the cached pair
with the new token and expiry `T + expires_in`, raising nothing; with
`expires_in = 3600` a validity check at `T + 3599` finds the token valid
and a check at `T + 3600` finds it expired (exclusive boundary). -/
theorem refresh_success_sets_pair (s : RefresherAuth) (T : Nat)
    (resp : HttpResponse) (tok : String) (exp : Nat)
    (hstat : resp.status_code = 200)
    (htok : resp.body.access_token = some tok) (hne : tok ≠ "")
    (hexp : resp.body.expires_in = some exp) :
    (s.refresh T resp).1 =
      { s with access_token := some tok, expires_at := .dt (T + exp) } ∧
    (s.refresh T resp).2.1 = none ∧
    (exp = 3600 →
      (s.refresh T resp).1.is_valid (T + 3599) = .ok true ∧
      (s.refresh T resp).1.is_valid (T + 3600) = .ok false) := by
  have hr : s.refresh T resp =
      ({ s with access_token := some tok, expires_at := .dt (T + exp) }, none,
       [⟨ACCOUNT_ROOT ++ "/token", refreshData s.creds⟩]) := by
    unfold RefresherAuth.refresh
    simp [hstat, htok, hexp]
  refine ⟨by rw [hr], by rw [hr], ?_⟩
  rintro rfl
  rw [hr]
  have hp : pyTruthy (some tok) = true := by
    have hemp : tok.isEmpty = false := by
      rw [← Bool.not_eq_true, String.isEmpty_iff]
      exact hne
    simp [pyTruthy, hemp]
  constructor <;> simp [RefresherAuth.is_valid, hp]

/-- Witness for C2: refresh at time 1000 with `expires_in = 3600`. -/
theorem refresh_success_sets_pair_witness :
    (sInitA.refresh 1000 resp3600).1 =
      ⟨credsA, some "tok1", .dt (1000 + 3600)⟩ ∧
    (sInitA.refresh 1000 resp3600).1.is_valid (1000 + 3599) = Except.ok true ∧
    (sInitA.refresh 1000 resp3600).1.is_valid (1000 + 3600) = Except.ok false := by
  have h := refresh_success_sets_pair sInitA 1000 resp3600 "tok1" 3600
    rfl rfl (by decide) rfl
  exact ⟨h.1, (h.2.2 rfl).1, (h.2.2 rfl).2⟩

/-- Claim C3 counterexample: a refresh answered with status 400 and body
containing a `message` field but no `msg` field makes authorize raise a
`KeyError` for `"msg"` — not an error carrying the status code and the
server-supplied message — because the code reads `resp.json()["msg"]` only
and never consults `message`. -/
theorem call_message_only_raises_keyError :
    (sInitA.call 0 respMessageOnly reqA).result =
      Except.error (PyError.keyError "msg") ∧
    (sInitA.call 0 respMessageOnly reqA).result ≠
      Except.error (PyError.authRefreshError 400 "oops") := by
  constructor <;> decide

/-- Claim C3 as amended: for every refresh triggered by authorize whose
response has a non-success status and whose JSON body contains a `msg`
field, authorize fails with the auth-refresh error carrying the status code
and that `msg` value, the cached state is unchanged, and exactly one
token-endpoint call was issued (no automatic retry).  The `message` field
is never consulted; a body without `msg` raises a lookup error instead. -/
theorem refresh_failure_raises_status_msg (s : RefresherAuth) (now : Nat)
    (resp : HttpResponse) (req : Request) (m : String)
    (hinv : s.is_valid now = .ok false)
    (hstat : resp.status_code ≠ 200) (hmsg : resp.body.msg = some m) :
    s.call now resp req =
      ⟨s, .error (.authRefreshError resp.status_code m),
       [⟨ACCOUNT_ROOT ++ "/token", refreshData s.creds⟩]⟩ := by
  simp [RefresherAuth.call, hinv, RefresherAuth.refresh, hstat, hmsg]

/-- Witness for the amended C3: a 400 response with `msg = "bad creds"`. -/
theorem refresh_failure_raises_status_msg_witness :
    sInitA.call 0 respBadCreds reqA =
      ⟨sInitA, .error (.authRefreshError 400 "bad creds"),
       [⟨ACCOUNT_ROOT ++ "/token", refreshData credsA⟩]⟩ :=
  refresh_failure_raises_status_msg sInitA 0 respBadCreds reqA "bad creds"
    rfl (by decide) rfl

/-- Claim C4 counterexample: a failing refresh CAN leave a partial update.
With an expired cached token `"old"`, a refresh answered with status 200
whose body has `access_token = "new"` but no `expires_in` raises a KeyError
from authorize, yet the cached `access_token` has already been overwritten
with `"new"` while `expires_at` keeps its old value. -/
theorem call_failure_partial_update :
    (sOldTok.call 20 respNoExpiry reqA).result =
      Except.error (PyError.keyError "expires_in") ∧
    (sOldTok.call 20 respNoExpiry reqA).state.access_token = some "new" ∧
    sOldTok.access_token = some "old" ∧
    (sOldTok.call 20 respNoExpiry reqA).state.expires_at = sOldTok.expires_at := by
  refine ⟨?_, ?_, ?_, ?_⟩ <;> decide

/-- Claim C4 as amended: when the refresh call fails with a non-success
HTTP status (e.g. 400 with body `msg = "bad creds"`), authorize raises and
the state — both `access_token` and `expires_at` — is left exactly as it
was; the non-success branch performs no update at all.  (A success-status
response with `access_token` but no `expires_in` is the one failing refresh
that does update `access_token`.) -/
theorem refresh_error_status_no_partial_update (s : RefresherAuth) (now : Nat)
    (resp : HttpResponse) (req : Request)
    (hinv : s.is_valid now = .ok false) (hstat : resp.status_code ≠ 200) :
    (s.call now resp req).state = s ∧
    ∃ e, (s.call now resp req).result = .error e := by
  cases hm : resp.body.msg with
  | none => simp [RefresherAuth.call, hinv, RefresherAuth.refresh, hstat, hm]
  | some m => simp [RefresherAuth.call, hinv, RefresherAuth.refresh, hstat, hm]

/-- Witness for the amended C4 at the spec's own example input. -/
theorem refresh_error_status_no_partial_update_witness :
    (sOldTok.call 20 respBadCreds reqA).state = sOldTok ∧
    ∃ e, (sOldTok.call 20 respBadCreds reqA).result = Except.error e :=
  refresh_error_status_no_partial_update sOldTok 20 respBadCreds reqA
    (by decide) (by decide)

/-- Claim C5: whenever authorize succeeds, the returned request is the
input request with the single header `Authorization` set to
`"Bearer " ++ accessToken` (the current, possibly just-refreshed token);
its method, URL, body and every other header are unchanged. -/
theorem call_decorates_only_auth_header (s : RefresherAuth) (now : Nat)
    (resp : HttpResponse) (req : Request) (out : Request)
    (h : (s.call now resp req).result = .ok out) :
    out.method = req.method ∧ out.url = req.url ∧ out.body = req.body ∧
    getHeader out.headers "Authorization" =
      some ("Bearer " ++ pyFormat (s.call now resp req).state.access_token) ∧
    ∀ k, k ≠ "Authorization" →
      getHeader out.headers k = getHeader req.headers k := by
  obtain rfl := call_result_ok_eq s now resp req out h
  refine ⟨rfl, rfl, rfl, ?_, ?_⟩
  · exact getHeader_setHeader_self req.headers _ _
  · intro k hk
    exact getHeader_setHeader_ne req.headers _ _ k hk

/-- Witness for C5: a cache hit decorates the request with the cached
token and leaves the other header alone. -/
theorem call_decorates_only_auth_header_witness :
    (attachAuth reqA (some "tok")).method = reqA.method ∧
    getHeader (attachAuth reqA (some "tok")).headers "Authorization" =
      some ("Bearer " ++ pyFormat (sValidA.call 50 resp60 reqA).state.access_token) ∧
    getHeader (attachAuth reqA (some "tok")).headers "Accept" =
      getHeader reqA.headers "Accept" := by
  have h := call_decorates_only_auth_header sValidA 50 resp60 reqA
    (attachAuth reqA (some "tok")) (by decide)
  exact ⟨h.1, h.2.2.2.1, h.2.2.2.2 "Accept" (by decide)⟩

/-- Claim C6: every refresh issues exactly one POST, to
`ACCOUNT_ROOT ++ "/token"`, whose form body consists of exactly the fields
`refresh_token` (the stored refresh token), `grant_type=refresh_token`,
`client_id` and `client_secret` from the credentials, and
`redirect_uri=http://localhost:9876/callback` — whatever the response is. -/
theorem refresh_posts_exactly_one (s : RefresherAuth) (now : Nat)
    (resp : HttpResponse) :
    (s.refresh now resp).2.2 =
      [⟨ACCOUNT_ROOT ++ "/token",
        [("refresh_token", s.creds.refresh_token),
         ("grant_type", some "refresh_token"),
         ("client_id", some s.creds.client_id),
         ("client_secret", some s.creds.client_secret),
         ("redirect_uri", some "http://localhost:9876/callback")]⟩] := by
  rw [refresh_issued_eq]
  rfl

/-- Claim C7 counterexample: constructing the refresh-token authorizer with
credentials that hold no refresh token succeeds silently — `__init__` stores
the credentials without any validation and no configuration error exists in
the code; the client constructor merely selects the other authorizer. -/
theorem init_no_token_succeeds_silently :
    RefresherAuth.init credsNoToken =
      ⟨credsNoToken, none, PyExpiry.int 0⟩ ∧
    buildAuth credsNoToken = Auth.oauth2Flow credsNoToken :=
  ⟨rfl, rfl⟩

/-- Claim C7 as amended: no error is raised at authorizer construction;
instead the client constructor selects the refresh-token authorizer exactly
when the credentials' refresh token is truthy (present and nonempty), and
falls back to the interactive OAuth2 authorizer otherwise, so the
refresh-token flow is never selected with incomplete credentials — but
direct construction with incomplete credentials succeeds silently. -/
theorem buildAuth_selects_refresher_iff (creds : Credentials) :
    (buildAuth creds = Auth.refresher (RefresherAuth.init creds) ↔
       pyTruthy creds.refresh_token = true) ∧
    (buildAuth creds = Auth.oauth2Flow creds ↔
       pyTruthy creds.refresh_token = false) := by
  unfold buildAuth
  by_cases h : pyTruthy creds.refresh_token <;> simp [h]

/-- A nonempty optional string is Python-truthy. -/
theorem pyTruthy_some_of_ne (tok : String) (h : tok ≠ "") :
    pyTruthy (some tok) = true := by
  have hemp : tok.isEmpty = false := by
    rw [← Bool.not_eq_true, String.isEmpty_iff]
    exact h
  simp [pyTruthy, hemp]

/-- `is_valid` can only raise the datetime-vs-int `TypeError`. -/
theorem is_valid_error_eq (s : RefresherAuth) (now : Nat) (e : PyError)
    (h : s.is_valid now = .error e) : e = .typeError := by
  unfold RefresherAuth.is_valid at h
  by_cases hp : pyTruthy s.access_token
  · cases he : s.expires_at with
    | int n =>
      simp [hp, he] at h
      exact h.symm
    | dt t => simp [hp, he] at h
  · simp [hp] at h

/-- A refresh that raises the auth-refresh `RuntimeError` took the
non-success-status branch and left the state untouched. -/
theorem refresh_authRefreshError_state (s : RefresherAuth) (now : Nat)
    (resp : HttpResponse) (s2 : RefresherAuth) (st : Nat) (m : String)
    (iss : List TokenRequest)
    (h : s.refresh now resp = (s2, some (.authRefreshError st m), iss)) :
    s2 = s := by
  unfold RefresherAuth.refresh at h
  by_cases hs : resp.status_code ≠ 200
  · cases hm : resp.body.msg with
    | none => simp [hs, hm] at h
    | some m' =>
      simp [hs, hm] at h
      exact h.1.symm
  · cases ha : resp.body.access_token with
    | none => simp [hs, ha] at h
    | some tok =>
      cases he : resp.body.expires_in with
      | none => simp [hs, ha, he] at h
      | some exp => simp [hs, ha, he] at h

/-- Claim C8 counterexample: a failed refresh CAN be terminal for the
authorizer.  From the freshly constructed state, a refresh answered with
status 200 whose body carries `access_token` but no `expires_in` fails
(KeyError) after overwriting the token, leaving `expires_at` as the int
sentinel.  The next authorize call — even with a perfectly good refresh
response available — raises the datetime-vs-int `TypeError` inside
`is_valid` before attempting any refresh: it neither finds the token
invalid nor retries a refresh from scratch, and no token POST is issued. -/
theorem failed_refresh_can_be_terminal :
    ((RefresherAuth.init credsA).call 0 respNoExpiry reqA).result =
      Except.error (PyError.keyError "expires_in") ∧
    ((((RefresherAuth.init credsA).call 0 respNoExpiry reqA).state).call 1 resp60 reqA).result =
      Except.error PyError.typeError ∧
    ((((RefresherAuth.init credsA).call 0 respNoExpiry reqA).state).call 1 resp60 reqA).issued =
      [] := by
  refine ⟨?_, ?_, ?_⟩ <;> decide

/-- Claim C8 as amended: a refresh that fails with a non-success HTTP
status (the auth-refresh error) is not terminal.  If an authorize call at
time `now` fails with the auth-refresh error, the cached state is exactly
as before; at any later time `now'` the token is still invalid, so the next
authorize call issues a fresh refresh POST, and if that refresh succeeds
(status 200, nonempty token, positive lifetime) the authorizer lands in a
valid state and decorates the request with the new token.  (A refresh that
fails on a 200 response lacking `expires_in` is, by contrast, terminal:
every later authorize raises before attempting a refresh.) -/
theorem failed_refresh_not_terminal (s : RefresherAuth) (now now' : Nat)
    (resp resp' : HttpResponse) (req req' : Request) (st : Nat) (m : String)
    (tok : String) (exp : Nat)
    (hfail : (s.call now resp req).result = .error (.authRefreshError st m))
    (hle : now ≤ now')
    (hstat : resp'.status_code = 200)
    (htok : resp'.body.access_token = some tok) (hne : tok ≠ "")
    (hexp : resp'.body.expires_in = some exp) (hpos : 0 < exp) :
    (s.call now resp req).state = s ∧
    s.is_valid now' = .ok false ∧
    (s.call now' resp' req').issued =
      [⟨ACCOUNT_ROOT ++ "/token", refreshData s.creds⟩] ∧
    (s.call now' resp' req').state =
      { s with access_token := some tok, expires_at := .dt (now' + exp) } ∧
    ((s.call now' resp' req').state).is_valid now' = .ok true ∧
    (s.call now' resp' req').result = .ok (attachAuth req' (some tok)) := by
  have hv : s.is_valid now = .ok false := by
    cases hvv : s.is_valid now with
    | error e =>
      obtain rfl := is_valid_error_eq s now e hvv
      have : (s.call now resp req).result = .error .typeError := by
        simp [RefresherAuth.call, hvv]
      rw [this] at hfail
      simp at hfail
    | ok b =>
      cases b with
      | true =>
        rw [call_of_valid s now resp req hvv] at hfail
        simp at hfail
      | false => rfl
  have hstate : (s.call now resp req).state = s := by
    rcases hr : s.refresh now resp with ⟨s2, oe, iss⟩
    cases oe with
    | none =>
      have : (s.call now resp req).result = .ok (attachAuth req s2.access_token) := by
        simp [RefresherAuth.call, hv, hr]
      rw [this] at hfail
      simp at hfail
    | some e =>
      have hres : (s.call now resp req).result = .error e := by
        simp [RefresherAuth.call, hv, hr]
      rw [hres] at hfail
      obtain rfl := (Except.error.inj hfail)
      have hst : (s.call now resp req).state = s2 := by
        simp [RefresherAuth.call, hv, hr]
      rw [hst]
      exact refresh_authRefreshError_state s now resp s2 st m iss hr
  have hv' : s.is_valid now' = .ok false := is_valid_ok_false_mono s now now' hv hle
  have hr' : s.refresh now' resp' =
      ({ s with access_token := some tok, expires_at := .dt (now' + exp) }, none,
       [⟨ACCOUNT_ROOT ++ "/token", refreshData s.creds⟩]) := by
    unfold RefresherAuth.refresh
    simp [hstat, htok, hexp]
  have hcall' : s.call now' resp' req' =
      ⟨{ s with access_token := some tok, expires_at := .dt (now' + exp) },
       .ok (attachAuth req' (some tok)),
       [⟨ACCOUNT_ROOT ++ "/token", refreshData s.creds⟩]⟩ := by
    simp [RefresherAuth.call, hv', hr']
  refine ⟨hstate, hv', ?_, ?_, ?_, ?_⟩
  · rw [hcall']
  · rw [hcall']
  · rw [hcall']
    simp [RefresherAuth.is_valid, pyTruthy_some_of_ne tok hne]
    omega
  · rw [hcall']

/-- Witness for the amended C8: a 400 refresh at time 20 leaves the state
alone; the next call at time 30 with a good response returns a decorated
request. -/
theorem failed_refresh_not_terminal_witness :
    (sOldTok.call 20 respBadCreds reqA).state = sOldTok ∧
    (sOldTok.call 30 resp60 reqB).result = Except.ok (attachAuth reqB (some "tok2")) := by
  have h := failed_refresh_not_terminal sOldTok 20 30 respBadCreds resp60 reqA reqB
    400 "bad creds" "tok2" 60 (by decide) (by decide) rfl rfl (by decide) rfl (by decide)
  exact ⟨h.1, h.2.2.2.2.2⟩

/-- Claim C9 counterexample: one authorize call from the freshly constructed
authorizer, answered with a 200 response whose body has `access_token` but
no `expires_in`, reaches a state where the token is present while
`expires_at` is still the int sentinel `0`; in that reachable state
`is_valid` raises the datetime-vs-int `TypeError` instead of returning. -/
theorem is_valid_raises_in_reachable_state :
    ((RefresherAuth.init credsA).call 0 respNoExpiry reqA).state =
      ⟨credsA, some "new", PyExpiry.int 0⟩ ∧
    RefresherAuth.is_valid ⟨credsA, some "new", PyExpiry.int 0⟩ 1 =
      Except.error PyError.typeError := by
  constructor <;> decide

/-- A refresh fed only well-formed success responses (200 implies
`expires_in` present) preserves the token/expiry invariant. -/
theorem refresh_preserves_inv (s : RefresherAuth) (now : Nat)
    (resp : HttpResponse)
    (hresp : resp.status_code = 200 → resp.body.expires_in ≠ none)
    (ih : s.access_token ≠ none → ∃ e, s.expires_at = PyExpiry.dt e) :
    (s.refresh now resp).1.access_token ≠ none →
      ∃ e, (s.refresh now resp).1.expires_at = PyExpiry.dt e := by
  unfold RefresherAuth.refresh
  by_cases hs : resp.status_code ≠ 200
  · cases hm : resp.body.msg <;> simp [hs, hm] <;> exact ih
  · have hs' : resp.status_code = 200 := not_ne_iff.mp hs
    cases ha : resp.body.access_token with
    | none =>
      simp [hs, ha]
      exact ih
    | some tok =>
      cases he : resp.body.expires_in with
      | none => exact absurd he (hresp hs')
      | some exp => simp [hs, ha, he]

/-- An authorize call either leaves the state alone or moves it to the
refresh post-state. -/
theorem call_state_cases (s : RefresherAuth) (now : Nat)
    (resp : HttpResponse) (req : Request) :
    (s.call now resp req).state = s ∨
    (s.call now resp req).state = (s.refresh now resp).1 := by
  cases hv : s.is_valid now with
  | error e =>
    left
    simp [RefresherAuth.call, hv]
  | ok b =>
    cases b with
    | true =>
      left
      simp [RefresherAuth.call, hv]
    | false =>
      right
      rcases hr : s.refresh now resp with ⟨s2, oe, iss⟩
      cases oe <;> simp [RefresherAuth.call, hv, hr]

/-- Claim C9 as amended: in every state reachable through authorize calls
whose 200-status refresh responses always carry `expires_in`, the access
token is present only if `expires_at` holds a real timestamp set by a
successful refresh; the initial state has no token and the int sentinel
`0` as `expires_at`; and since `is_valid` short-circuits on the absent
token, it never raises in any such reachable state.  (Without the
well-formedness proviso a 200 response lacking `expires_in` reaches a
state where `is_valid` raises a `TypeError`.) -/
theorem reachable_inv_is_valid_total (s : RefresherAuth) (hs : ReachableW s) :
    (s.access_token ≠ none → ∃ e, s.expires_at = PyExpiry.dt e) ∧
    (∀ creds, (RefresherAuth.init creds).access_token = none ∧
       (RefresherAuth.init creds).expires_at = PyExpiry.int 0) ∧
    ∀ now, ∃ b, s.is_valid now = .ok b := by
  have inv : s.access_token ≠ none → ∃ e, s.expires_at = PyExpiry.dt e := by
    induction hs with
    | init creds => simp [RefresherAuth.init]
    | step s now resp req hresp hs ih =>
      rcases call_state_cases s now resp req with h | h
      · rw [h]
        exact ih
      · rw [h]
        exact refresh_preserves_inv s now resp hresp ih
  refine ⟨inv, fun creds => ⟨rfl, rfl⟩, fun now => ?_⟩
  unfold RefresherAuth.is_valid
  by_cases hp : pyTruthy s.access_token
  · have hne : s.access_token ≠ none := by
      cases h : s.access_token with
      | none => rw [h] at hp; simp [pyTruthy] at hp
      | some t => simp
    obtain ⟨e, he⟩ := inv hne
    exact ⟨decide (now < e), by simp [hp, he]⟩
  · exact ⟨false, by simp [hp]⟩

/-- Witness for the amended C9 at a concrete reachable state. -/
theorem reachable_inv_is_valid_total_witness :
    ∃ b, (RefresherAuth.init credsA).is_valid 5 = Except.ok b :=
  (reachable_inv_is_valid_total (RefresherAuth.init credsA)
    (ReachableW.init credsA)).2.2 5

/-- Claim C10: when the incoming request already carries an `Authorization`
header, a successful authorize call overwrites it — the returned request's
`Authorization` value is `"Bearer " ++ accessToken` regardless of the prior
value — and no other field (method, URL, body, other headers) changes. -/
theorem call_overwrites_existing_auth_header (s : RefresherAuth) (now : Nat)
    (resp : HttpResponse) (req : Request) (out : Request) (old : String)
    (_hold : getHeader req.headers "Authorization" = some old)
    (h : (s.call now resp req).result = .ok out) :
    getHeader out.headers "Authorization" =
      some ("Bearer " ++ pyFormat (s.call now resp req).state.access_token) ∧
    out.method = req.method ∧ out.url = req.url ∧ out.body = req.body ∧
    ∀ k, k ≠ "Authorization" →
      getHeader out.headers k = getHeader req.headers k := by
  obtain rfl := call_result_ok_eq s now resp req out h
  refine ⟨getHeader_setHeader_self req.headers _ _, rfl, rfl, rfl, ?_⟩
  intro k hk
  exact getHeader_setHeader_ne req.headers _ _ k hk

/-- Witness for C10: the stale `Bearer stale` header of `reqB` is replaced
by the freshly refreshed token. -/
theorem call_overwrites_existing_auth_header_witness :
    getHeader (attachAuth reqB (some "tok2")).headers "Authorization" =
      some ("Bearer " ++ pyFormat (sOldTok.call 30 resp60 reqB).state.access_token) ∧
    getHeader (attachAuth reqB (some "tok2")).headers "Authorization" =
      some "Bearer tok2" := by
  have h := call_overwrites_existing_auth_header sOldTok 30 resp60 reqB
    (attachAuth reqB (some "tok2")) "Bearer stale" (by decide) (by decide)
  exact ⟨h.1, by decide⟩
